import Mathlib

/-!
Verification of the `dpp::task` coroutine primitive
(src/MyBot/dependencies/include/dpp-10.0/dpp/coro/task.h) against its
natural-language specification.

The shared state behind one task instance is the coroutine promise
(`detail::task_promise<R>` / `task_promise_base`, task.h lines 223-343)
together with the coroutine frame's "done" flag (exposed by
`std::coroutine_handle::done`).  We embed it as a record `TaskState`:

  - `done`       : the coroutine is suspended at its final suspension point
                   (`handle.done()`);
  - `is_sync`    : `task_promise_base::is_sync` (line 246);
  - `parent`     : `task_promise_base::parent` (line 232), an abstract
                   continuation handle modelled as `Option Nat`;
  - `exception`  : `task_promise_base::exception` (line 239), the captured
                   failure payload modelled opaquely as `Option String`;
  - `value`      : `task_promise<R>::value` (line 313), `std::optional<R>`.

A task handle (`dpp::task<R>`, which holds `detail::task_handle<R> handle`,
line 75) is embedded as `Option (TaskState R)`: `none` is an empty handle
(default-constructed or moved-from, i.e. a null coroutine handle).

Operations that may exhibit C++ undefined behaviour (dereferencing an empty
`std::optional`, calling through a null coroutine handle) return an explicit
`undefinedBehavior` outcome / `none`; operations that throw return
`Except.error`.  Where a claim is about lock usage, the embedding also
reports how many times the operation acquires the promise mutex.
-/

namespace DppTask

/-- The shared task state: promise fields plus the frame's done flag. -/
structure TaskState (R : Type) where
  done : Bool
  is_sync : Bool
  parent : Option Nat
  exception : Option String
  value : Option R
  deriving Repr, DecidableEq

/-- State of a freshly created promise: `parent = nullptr` (line 232),
`exception = nullptr` (line 239), `is_sync = true` (line 246),
`value = std::nullopt` (line 313), and the coroutine has not reached its
final suspension point. -/
def TaskState.init (R : Type) : TaskState R :=
  { done := false, is_sync := true, parent := none, exception := none, value := none }

/-- Outcome of evaluating an expression that may throw or hit C++ UB. -/
inductive Outcome (R : Type) where
  | ok : R → Outcome R
  | raised : String → Outcome R
  | undefinedBehavior : Outcome R
  deriving Repr, DecidableEq

/-- Embeds `task::await_ready` (lines 141-150): throws on an empty handle; if
`is_sync` reports ready with no lock taken; otherwise takes the mutex and
re-reads `handle.done()` under it.  Result: (reported readiness, number of
mutex acquisitions). -/
def await_ready {R : Type} (t : Option (TaskState R)) : Except String (Bool × Nat) :=
  match t with
  | none => Except.error "cannot co_await an empty task"
  | some s =>
    if s.is_sync then Except.ok (true, 0)
    else Except.ok (s.done, 1)

/-- Result of `task::await_suspend`: whether the caller suspends, the state
after the call, and the number of mutex acquisitions performed. -/
structure SuspendResult (R : Type) where
  shouldSuspend : Bool
  state : TaskState R
  locks : Nat
  deriving Repr, DecidableEq

/-- Embeds `task::await_suspend` (lines 161-172): one `std::lock_guard` over the
promise mutex; under it, if `handle.done()` return false (do not store the
caller), else store the caller in `promise.parent` and return true. -/
def await_suspend {R : Type} (s : TaskState R) (caller : Nat) : SuspendResult R :=
  if s.done then { shouldSuspend := false, state := s, locks := 1 }
  else { shouldSuspend := true, state := { s with parent := some caller }, locks := 1 }

/-- Embeds `task<R>::await_resume` (lines 387-392): if an exception was captured,
rethrow it (the value slot is left untouched); otherwise return
`*std::exchange(value, std::nullopt)` — dereferencing the emptied slot when
no value is stored is C++ undefined behaviour. -/
def await_resume {R : Type} (s : TaskState R) : Outcome R × TaskState R :=
  match s.exception with
  | some e => (Outcome.raised e, s)
  | none =>
    match s.value with
    | some v => (Outcome.ok v, { s with value := none })
    | none => (Outcome.undefinedBehavior, s)

/-- Embeds `task::done` (lines 189-191): `handle.done()` with no null-handle guard;
on an empty handle this calls through a null coroutine handle (C++ UB),
modelled as `none`. -/
def doneH {R : Type} (t : Option (TaskState R)) : Option Bool :=
  match t with
  | none => none
  | some s => some s.done

/-- Handle-level `task::await_suspend`: `handle.promise()` is called with no
null-handle guard, so an empty handle is C++ UB, modelled as `none`. -/
def await_suspendH {R : Type} (t : Option (TaskState R)) (caller : Nat) :
    Option (SuspendResult R) :=
  match t with
  | none => none
  | some s => some (await_suspend s caller)

/-- Outcome of one full `co_await` on a task handle, along the path where the
task is already complete (readiness check, then resumption). -/
inductive AwaitOutcome (R : Type) where
  | resumed : Outcome R → TaskState R → AwaitOutcome R
  | suspendedWaiting : AwaitOutcome R
  deriving Repr, DecidableEq

/-- One `co_await` of a task handle as the standard machinery performs it:
`await_ready` (throwing on an empty handle, lines 141-143); if it reported
ready, `await_resume`; otherwise the caller proceeds to `await_suspend`
(modelled here only as `suspendedWaiting`). -/
def co_await {R : Type} (t : Option (TaskState R)) : Except String (AwaitOutcome R) :=
  match t with
  | none => Except.error "cannot co_await an empty task"
  | some s =>
    if s.is_sync then Except.ok (AwaitOutcome.resumed (await_resume s).1 (await_resume s).2)
    else if s.done then Except.ok (AwaitOutcome.resumed (await_resume s).1 (await_resume s).2)
    else Except.ok AwaitOutcome.suspendedWaiting

/-- Whether the result of a `co_await` is a deterministic fail-fast failure:
either a thrown usage error or a re-raised captured failure.  C++ undefined
behaviour is not a deterministic failure. -/
def isFailFast {R : Type} : Except String (AwaitOutcome R) → Bool
  | Except.error _ => true
  | Except.ok (AwaitOutcome.resumed (Outcome.raised _) _) => true
  | _ => false

/-- What `task::~task` (lines 112-117) does. -/
inductive DtorOutcome where
  | cleanNoop
  | assertionFailure
  | destroyed
  deriving Repr, DecidableEq

/-- Embeds `task::~task` (lines 112-117): nothing on an empty handle; otherwise
`assert(handle.done() && ...)` fails fast if the coroutine is not finished,
and `handle.destroy()` frees the coroutine state when it is. -/
def dtor {R : Type} (t : Option (TaskState R)) : DtorOutcome :=
  match t with
  | none => DtorOutcome.cleanNoop
  | some s => if s.done then DtorOutcome.destroyed else DtorOutcome.assertionFailure

/-- Result of a move operation on task handles: the new target handle, the
new source handle, and the binding the target previously held (returned
unchanged: the move neither destroys nor mutates it). -/
structure MoveResult (R : Type) where
  target : Option (TaskState R)
  source : Option (TaskState R)
  dropped : Option (TaskState R)
  deriving Repr, DecidableEq

/-- Embeds `task::operator=(task&&)` (lines 129-132):
`handle = std::exchange(other.handle, nullptr)` — the target takes the
source's handle, the source becomes empty, and the target's previous
binding is simply dropped (no destructor, no completion, no mutation). -/
def moveAssign {R : Type} (target other : Option (TaskState R)) : MoveResult R :=
  { target := other, source := none, dropped := target }

/-- Embeds `task::task(task&&)` (line 103):
`handle(std::exchange(other.handle, nullptr))` — returns (new task's handle,
source's handle afterwards). -/
def moveConstruct {R : Type} (other : Option (TaskState R)) :
    Option (TaskState R) × Option (TaskState R) :=
  (other, none)

/-- The continuation handed back by `task_chain_final_awaiter::await_suspend`
for the coroutine machinery to resume. -/
inductive ResumeTarget where
  | continuation : Nat → ResumeTarget
  | noop : ResumeTarget
  deriving Repr, DecidableEq

/-- Embeds `task_chain_final_awaiter::await_ready` (lines 203-205): always false —
the task always suspends at its final suspension point. -/
def finalAwaiter_await_ready : Bool := false

/-- Embeds `task_chain_final_awaiter::await_suspend` (lines 376-379):
`return handle.promise().parent ? handle.promise().parent : noop_coroutine()`.
Note: this read of `parent` takes no lock. -/
def finalAwaiter_await_suspend {R : Type} (s : TaskState R) : ResumeTarget :=
  match s.parent with
  | some c => ResumeTarget.continuation c
  | none => ResumeTarget.noop

/-- Embeds `task_chain_final_awaiter::await_resume` (line 218): does nothing. -/
def finalAwaiter_await_resume : Unit := ()

/-- Embeds `task_promise<R>::return_value` (lines 322-324): stores the co_returned
value in the promise's slot. -/
def return_value {R : Type} (v : R) (s : TaskState R) : TaskState R :=
  { s with value := some v }

/-- Embeds `task_promise_base::unhandled_exception` (lines 298-300): captures the
in-flight failure opaquely. -/
def unhandled_exception {R : Type} (e : String) (s : TaskState R) : TaskState R :=
  { s with exception := some e }

/-- Embeds `task_promise_base::await_transform` (lines 263-282): all three constexpr
branches perform the same state update — call `await_ready()` on the awaited
expression's awaiter and set `is_sync` to false exactly when it is not
already ready. -/
def await_transform {R : Type} (s : TaskState R) (exprReady : Bool) : TaskState R :=
  if exprReady then s else { s with is_sync := false }

/-- Reaching the final suspension point: after `final_suspend` the coroutine
is suspended there, so `handle.done()` becomes true. -/
def markDone {R : Type} (s : TaskState R) : TaskState R :=
  { s with done := true }

/-!
## Execution model

A coarse-grained execution model of one task's lifetime, used to establish
which states a caller holding the task object can actually observe.  `Phase`
records where control of the task body is: still running, suspended at an
inner co_await, or suspended at the final suspension point.  The caller only
obtains the task object once the task function returns to it, which happens
at the first real suspension or at completion (the task starts eagerly:
`initial_suspend` is `suspend_never`, lines 289-291); `everSuspended`
records whether a real suspension has occurred.
-/

/-- Where control of the task body currently is. -/
inductive Phase where
  | running
  | suspended
  | final
  deriving Repr, DecidableEq

/-- A configuration of a task's execution: shared state, control phase, and
whether the body ever really suspended. -/
structure Config (R : Type) where
  st : TaskState R
  phase : Phase
  everSuspended : Bool
  deriving Repr, DecidableEq

/-- The caller can interact with the task object (e.g. call `await_ready`)
only once the task function has returned it: after the first real suspension
or once the body has finished. -/
def CanObserve {R : Type} (c : Config R) : Prop :=
  c.phase = Phase.final ∨ c.everSuspended = true

/-- Reachable configurations of one task's execution.  Body steps: an inner
co_await whose awaiter is ready (continue synchronously), one that is not
ready and suspends, one that is not ready but whose awaiter declines the
suspension (the body continues), resumption of a suspended body by the
external operation, and completion by co_return or by an escaping failure
(value / exception stored, then the coroutine suspends at its final
suspension point).  Caller step: registering as the continuation via
`task::await_suspend`, possible whenever the caller holds the object. -/
inductive Reachable {R : Type} : Config R → Prop where
  | init : Reachable ⟨TaskState.init R, Phase.running, false⟩
  | transformReady (c : Config R) : Reachable c → c.phase = Phase.running →
      Reachable ⟨await_transform c.st true, Phase.running, c.everSuspended⟩
  | transformSuspend (c : Config R) : Reachable c → c.phase = Phase.running →
      Reachable ⟨await_transform c.st false, Phase.suspended, true⟩
  | transformInline (c : Config R) : Reachable c → c.phase = Phase.running →
      Reachable ⟨await_transform c.st false, Phase.running, c.everSuspended⟩
  | resumeBody (c : Config R) : Reachable c → c.phase = Phase.suspended →
      Reachable ⟨c.st, Phase.running, c.everSuspended⟩
  | finishValue (c : Config R) (v : R) : Reachable c → c.phase = Phase.running →
      Reachable ⟨markDone (return_value v c.st), Phase.final, c.everSuspended⟩
  | finishThrow (c : Config R) (e : String) : Reachable c → c.phase = Phase.running →
      Reachable ⟨markDone (unhandled_exception e c.st), Phase.final, c.everSuspended⟩
  | register (c : Config R) (k : Nat) : Reachable c → CanObserve c →
      Reachable ⟨(await_suspend c.st k).state, c.phase, c.everSuspended⟩

/-- Lemma: `task::await_suspend` never changes `is_sync` or `done`. -/
theorem await_suspend_state_fields {R : Type} (s : TaskState R) (k : Nat) :
    (await_suspend s k).state.is_sync = s.is_sync ∧
    (await_suspend s k).state.done = s.done := by
  unfold await_suspend
  split <;> simp

/-- Key invariant: in any reachable configuration, if `is_sync` still holds
then either the body is still in its initial synchronous run (control never
left it, so no caller holds the object yet) or the task is done. -/
theorem sync_invariant {R : Type} (c : Config R) (h : Reachable c) :
    c.st.is_sync = true →
    (c.phase = Phase.running ∧ c.everSuspended = false) ∨ c.st.done = true := by
  induction h with
  | init => intro _; exact Or.inl ⟨rfl, rfl⟩
  | transformReady c hc hrun ih =>
    intro hs
    have hs2 : c.st.is_sync = true := by simpa [await_transform] using hs
    rcases ih hs2 with ⟨_, hev⟩ | hdone
    · exact Or.inl ⟨rfl, hev⟩
    · exact Or.inr (by simpa [await_transform] using hdone)
  | transformSuspend c hc hrun ih =>
    intro hs
    simp [await_transform] at hs
  | transformInline c hc hrun ih =>
    intro hs
    simp [await_transform] at hs
  | resumeBody c hc hsusp ih =>
    intro hs
    rcases ih hs with ⟨hrun, _⟩ | hdone
    · rw [hsusp] at hrun; cases hrun
    · exact Or.inr hdone
  | finishValue c v hc hrun ih =>
    intro _
    exact Or.inr rfl
  | finishThrow c e hc hrun ih =>
    intro _
    exact Or.inr rfl
  | register c k hc hobs ih =>
    intro hs
    rw [(await_suspend_state_fields c.st k).1] at hs
    rcases ih hs with ⟨hrun, hev⟩ | hdone
    · exact Or.inl ⟨hrun, hev⟩
    · exact Or.inr ((await_suspend_state_fields c.st k).2.trans hdone)

/-- In any configuration the caller can observe, `is_sync` implies done. -/
theorem observable_sync_done {R : Type} (c : Config R) (h : Reachable c)
    (hobs : CanObserve c) : c.st.is_sync = true → c.st.done = true := by
  intro hs
  rcases sync_invariant c h hs with ⟨hrun, hev⟩ | hdone
  · rcases hobs with hfin | hever
    · rw [hfin] at hrun; cases hrun
    · rw [hev] at hever; cases hever
  · exact hdone

/-!
## Fine-grained race model (registration vs. completion)

`task::await_suspend` (lines 161-172) holds the promise mutex across its
done-check and its store of `parent`.  The completion path does not touch
the mutex at all: when the body finishes, the coroutine suspends at its
final suspension point (`handle.done()` becomes true) and
`task_chain_final_awaiter::await_suspend` (lines 376-379) then reads
`parent` with no lock.  A mutex only excludes other acquirers of the same
mutex, so the completion thread's two accesses can interleave freely with
the waiter's critical section.  We model the two threads at the granularity
of these shared-memory accesses.
-/

/-- Control point of the registering caller inside `task::await_suspend`:
before the locked done-check; after having read `done == false` (lock still
held, store not yet performed); returned true (stored itself, will stay
suspended until someone resumes it); returned false (will not suspend). -/
inductive CallerPC where
  | start
  | checkedNotDone
  | returnedTrue
  | returnedFalse
  deriving Repr, DecidableEq

/-- Control point of the completing task body: still running; suspended at
the final suspension point (`done` now true) but `parent` not yet read;
finished (final awaiter's continuation handed to the machinery). -/
inductive CompPC where
  | running
  | doneSet
  | finished
  deriving Repr, DecidableEq

/-- Joint state of one waiter racing one completion. `resumed` logs every
continuation the final awaiter hands to the machinery for resumption. -/
structure RaceState where
  done : Bool
  parent : Option Nat
  caller : Nat
  callerPC : CallerPC
  compPC : CompPC
  resumed : List Nat
  deriving Repr, DecidableEq

/-- Initial race state: task not done, no continuation registered, the
caller about to enter `await_suspend` with its own handle `caller`. -/
def raceInit (k : Nat) : RaceState :=
  { done := false, parent := none, caller := k, callerPC := CallerPC.start,
    compPC := CompPC.running, resumed := [] }

/-- Caller step 1: acquire the mutex and read `handle.done()`
(task.h lines 165-168).  If done, return false without storing. -/
def raceCallerCheck (s : RaceState) : RaceState :=
  if s.callerPC = CallerPC.start then
    if s.done then { s with callerPC := CallerPC.returnedFalse }
    else { s with callerPC := CallerPC.checkedNotDone }
  else s

/-- Caller step 2: still under the mutex, store itself as the continuation
and return true (task.h lines 170-171). -/
def raceCallerStore (s : RaceState) : RaceState :=
  if s.callerPC = CallerPC.checkedNotDone then
    { s with parent := some s.caller, callerPC := CallerPC.returnedTrue }
  else s

/-- Completion step 1: the body finishes and the coroutine suspends at its
final suspension point, making `handle.done()` true.  No lock is taken. -/
def raceCompSetDone (s : RaceState) : RaceState :=
  if s.compPC = CompPC.running then
    { s with done := true, compPC := CompPC.doneSet }
  else s

/-- Completion step 2: `task_chain_final_awaiter::await_suspend` reads
`parent` with no lock and hands back either the stored continuation or the
no-op coroutine (task.h lines 376-379). -/
def raceCompReadParent (s : RaceState) : RaceState :=
  if s.compPC = CompPC.doneSet then
    match s.parent with
    | some c => { s with resumed := s.resumed ++ [c], compPC := CompPC.finished }
    | none => { s with compPC := CompPC.finished }
  else s

/-- The interleaving exhibiting the lost wake-up: the caller reads
`done == false` under the mutex; the completion (which never takes the
mutex) then sets done and reads `parent` as still null, resuming the no-op
coroutine; finally the caller stores itself and returns true, suspending
forever. -/
def raceLostWakeup (k : Nat) : RaceState :=
  raceCallerStore (raceCompReadParent (raceCompSetDone (raceCallerCheck (raceInit k))))

/-!
## Claims
-/

/-- C1: For every non-empty task, registering a waiter (`task::await_suspend`)
acquires the shared-state mutex exactly once and, under that single critical
section, either observes the coroutine already done and returns false without
storing the waiter, or stores the caller as the continuation and returns
true. -/
theorem C1_await_suspend_single_lock {R : Type} (s : TaskState R) (k : Nat) :
    (await_suspend s k).locks = 1 ∧
    (s.done = true →
      (await_suspend s k).shouldSuspend = false ∧ (await_suspend s k).state = s) ∧
    (s.done = false →
      (await_suspend s k).shouldSuspend = true ∧
      (await_suspend s k).state = { s with parent := some k }) := by
  cases hd : s.done <;> simp [await_suspend, hd]

/-- Witness for C1: a fresh, unfinished task stores the waiter and tells the
caller to suspend, with a single mutex acquisition. -/
theorem C1_await_suspend_single_lock_witness :
    (await_suspend (TaskState.init Nat) 7).locks = 1 ∧
    (await_suspend (TaskState.init Nat) 7).shouldSuspend = true ∧
    (await_suspend (TaskState.init Nat) 7).state =
      { TaskState.init Nat with parent := some 7 } :=
  ⟨(C1_await_suspend_single_lock (TaskState.init Nat) 7).1,
   ((C1_await_suspend_single_lock (TaskState.init Nat) 7).2.2 rfl).1,
   ((C1_await_suspend_single_lock (TaskState.init Nat) 7).2.2 rfl).2⟩

/-- C2: When the task's body finishes, the final awaiter always suspends the
task's own execution (`await_ready` returns false); its `await_suspend`
returns the stored parent continuation if one was registered and a no-op
continuation otherwise; its `await_resume` does nothing. -/
theorem C2_final_awaiter_contract {R : Type} :
    finalAwaiter_await_ready = false ∧
    (∀ s : TaskState R, ∀ k : Nat, s.parent = some k →
      finalAwaiter_await_suspend s = ResumeTarget.continuation k) ∧
    (∀ s : TaskState R, s.parent = none →
      finalAwaiter_await_suspend s = ResumeTarget.noop) ∧
    finalAwaiter_await_resume = () := by
  refine ⟨rfl, ?_, ?_, rfl⟩
  · intro s k hk
    simp [finalAwaiter_await_suspend, hk]
  · intro s hn
    simp [finalAwaiter_await_suspend, hn]

/-- Witness for C2: with a registered parent the final awaiter hands back
that continuation; with none it hands back the no-op continuation. -/
theorem C2_final_awaiter_contract_witness :
    finalAwaiter_await_suspend { TaskState.init Nat with parent := some 3 } =
      ResumeTarget.continuation 3 ∧
    finalAwaiter_await_suspend (TaskState.init Nat) = ResumeTarget.noop :=
  ⟨(C2_final_awaiter_contract (R := Nat)).2.1 _ 3 rfl,
   (C2_final_awaiter_contract (R := Nat)).2.2.1 _ rfl⟩

/-- C3: For every non-empty task, in any configuration a caller holding the
task object can observe, the no-lock fast path of `task::await_ready`
reports ready exactly when the task never crossed a real suspension and is
done; when the fast path does not apply, the mutex is acquired exactly once
and `done` is re-read under it. -/
theorem C3_await_ready_fast_path {R : Type} (c : Config R)
    (h : Reachable c) (hobs : CanObserve c) :
    (await_ready (some c.st) = Except.ok (true, 0) ↔
      c.st.is_sync = true ∧ c.st.done = true) ∧
    (c.st.is_sync = false → await_ready (some c.st) = Except.ok (c.st.done, 1)) := by
  constructor
  · constructor
    · intro hr
      by_cases hs : c.st.is_sync = true
      · exact ⟨hs, observable_sync_done c h hobs hs⟩
      · simp [await_ready, hs] at hr
    · rintro ⟨hs, _⟩
      simp [await_ready, hs]
  · intro hs
    simp [await_ready, hs]

/-- Witness for C3: a task that returned 4 without ever suspending is
reported ready by the no-lock fast path. -/
theorem C3_await_ready_fast_path_witness :
    await_ready (some (markDone (return_value 4 (TaskState.init Nat)))) =
      Except.ok (true, 0) :=
  ((C3_await_ready_fast_path ⟨markDone (return_value 4 (TaskState.init Nat)), Phase.final, false⟩
      (Reachable.finishValue ⟨TaskState.init Nat, Phase.running, false⟩ 4 Reachable.init rfl)
      (Or.inl rfl)).1).2 ⟨rfl, rfl⟩

/-- C4: For every completed task, `task::await_resume` re-raises the captured
failure verbatim if one was stored — never returning a value in that case —
and otherwise returns the stored value moved out, resetting the storage slot
to empty. -/
theorem C4_await_resume_extraction {R : Type} (s : TaskState R) (hdone : s.done = true) :
    (∀ e : String, s.exception = some e →
      (await_resume s).1 = Outcome.raised e ∧ (await_resume s).2 = s ∧
      ∀ v : R, (await_resume s).1 ≠ Outcome.ok v) ∧
    (∀ v : R, s.exception = none → s.value = some v →
      (await_resume s).1 = Outcome.ok v ∧
      (await_resume s).2 = { s with value := none }) := by
  constructor
  · intro e he
    simp [await_resume, he]
  · intro v hne hv
    simp [await_resume, hne, hv]

/-- A completed task that captured the failure "boom" and stored no value. -/
def failedBoom : TaskState Nat :=
  { done := true, is_sync := true, parent := none, exception := some "boom", value := none }

/-- A completed task holding the value 4. -/
def completedFour : TaskState Nat :=
  { done := true, is_sync := true, parent := none, exception := none, value := some 4 }

/-- Witness for C4: a completed task that captured the failure "boom"
re-raises exactly it, and a completed task holding the value 4 hands out 4
and empties its slot. -/
theorem C4_await_resume_extraction_witness :
    (await_resume failedBoom).1 = Outcome.raised "boom" ∧
    (await_resume completedFour).1 = Outcome.ok 4 :=
  ⟨((C4_await_resume_extraction failedBoom rfl).1 "boom" rfl).1,
   ((C4_await_resume_extraction completedFour rfl).2 4 rfl rfl).1⟩

/-- A task that completed synchronously with value 4 and was never awaited. -/
def c5_completed : TaskState Nat :=
  { done := true, is_sync := true, parent := none, exception := none, value := some 4 }

/-- The same task after the first await extracted the value (the slot was
exchanged with `std::nullopt`). -/
def c5_afterFirst : TaskState Nat := (await_resume c5_completed).2

/-- C5 counterexample: awaiting the same completed value-task a second time
does not fail deterministically with a fail-fast error — the first await
hands out the value and empties the slot, and the second await dereferences
the emptied `std::optional`, which is C++ undefined behaviour, not a raised
error. -/
theorem C5_counterexample_double_await :
    co_await (some c5_completed) =
      Except.ok (AwaitOutcome.resumed (Outcome.ok 4) c5_afterFirst) ∧
    co_await (some c5_afterFirst) =
      Except.ok (AwaitOutcome.resumed Outcome.undefinedBehavior c5_afterFirst) ∧
    isFailFast (co_await (some c5_afterFirst)) = false :=
  ⟨rfl, rfl, rfl⟩

/-- C5 (amended): awaiting an empty handle fails deterministically with the
"invalid use" error raised by the readiness check; but a second await of a
completed value-task whose slot was already emptied is C++ undefined
behaviour (dereference of the emptied result slot, as the code's own
documentation warns), not a deterministic fail-fast error. -/
theorem C5_amended_empty_await_fail_fast {R : Type} (s : TaskState R) :
    co_await (none : Option (TaskState R)) =
      Except.error "cannot co_await an empty task" ∧
    isFailFast (co_await (none : Option (TaskState R))) = true ∧
    (s.done = true → s.exception = none → s.value = none →
      co_await (some s) =
        Except.ok (AwaitOutcome.resumed Outcome.undefinedBehavior s)) := by
  refine ⟨rfl, rfl, ?_⟩
  intro hd hne hv
  by_cases hs : s.is_sync = true
  · simp [co_await, hs, await_resume, hne, hv]
  · simp [co_await, hs, hd, await_resume, hne, hv]

/-- Witness for C5 (amended): the doubly-awaited concrete task hits the
undefined-behaviour outcome. -/
theorem C5_amended_empty_await_fail_fast_witness :
    co_await (some c5_afterFirst) =
      Except.ok (AwaitOutcome.resumed Outcome.undefinedBehavior c5_afterFirst) :=
  (C5_amended_empty_await_fail_fast c5_afterFirst).2.2 rfl rfl rfl

/-- C6: Destroying a handle bound to an unfinished computation always trips
the destructor's assertion (fail-fast, never a silent no-op); destroying an
empty handle does nothing; destroying a handle whose computation completed
destroys the coroutine state cleanly. -/
theorem C6_dtor_fail_fast {R : Type} (s : TaskState R) :
    dtor (none : Option (TaskState R)) = DtorOutcome.cleanNoop ∧
    (s.done = false → dtor (some s) = DtorOutcome.assertionFailure) ∧
    (s.done = true → dtor (some s) = DtorOutcome.destroyed) := by
  refine ⟨rfl, ?_, ?_⟩ <;> intro h <;> simp [dtor, h]

/-- Witness for C6: destroying a fresh, unfinished task trips the assertion,
and destroying it once done destroys cleanly. -/
theorem C6_dtor_fail_fast_witness :
    dtor (some (TaskState.init Nat)) = DtorOutcome.assertionFailure ∧
    dtor (some (markDone (TaskState.init Nat))) = DtorOutcome.destroyed :=
  ⟨(C6_dtor_fail_fast (TaskState.init Nat)).2.1 rfl,
   (C6_dtor_fail_fast (markDone (TaskState.init Nat))).2.2 rfl⟩

/-- C7: the code violates this claim.  The completion path takes no lock: in
the interleaving where the waiter reads `done == false` under the mutex,
then the completing body sets `done` and the final awaiter reads `parent`
(still null) and hands back the no-op coroutine, and only then the waiter
stores itself and returns true, the registered waiter is never resumed: the
race reaches a quiescent state (every further step is a no-op) in which the
waiter registered itself (`await_suspend` returned true) yet the resumption
log is empty. -/
theorem C7_lost_wakeup_race :
    (raceLostWakeup 7).callerPC = CallerPC.returnedTrue ∧
    (raceLostWakeup 7).parent = some 7 ∧
    (raceLostWakeup 7).done = true ∧
    (raceLostWakeup 7).compPC = CompPC.finished ∧
    (raceLostWakeup 7).resumed = [] ∧
    raceCallerCheck (raceLostWakeup 7) = raceLostWakeup 7 ∧
    raceCallerStore (raceLostWakeup 7) = raceLostWakeup 7 ∧
    raceCompSetDone (raceLostWakeup 7) = raceLostWakeup 7 ∧
    raceCompReadParent (raceLostWakeup 7) = raceLostWakeup 7 := by
  decide

/-- C8: `is_sync` is true at task creation; the await transformation sets it
to false exactly when the awaited expression reports it is not already
ready (and leaves the state untouched when it is ready); and no operation of
the core ever sets it back to true once false. -/
theorem C8_is_sync_monotone {R : Type} :
    (TaskState.init R).is_sync = true ∧
    (∀ s : TaskState R, await_transform s true = s) ∧
    (∀ s : TaskState R, await_transform s false = { s with is_sync := false }) ∧
    (∀ s : TaskState R, ∀ b : Bool,
      s.is_sync = false → (await_transform s b).is_sync = false) ∧
    (∀ s : TaskState R, ∀ v : R,
      s.is_sync = false → (return_value v s).is_sync = false) ∧
    (∀ s : TaskState R, ∀ e : String,
      s.is_sync = false → (unhandled_exception e s).is_sync = false) ∧
    (∀ s : TaskState R, s.is_sync = false → (markDone s).is_sync = false) ∧
    (∀ s : TaskState R, ∀ k : Nat,
      s.is_sync = false → (await_suspend s k).state.is_sync = false) ∧
    (∀ s : TaskState R, s.is_sync = false → (await_resume s).2.is_sync = false) := by
  refine ⟨rfl, ?_, ?_, ?_, ?_, ?_, ?_, ?_, ?_⟩
  · intro s
    simp [await_transform]
  · intro s
    simp [await_transform]
  · intro s b hs
    cases b <;> simp [await_transform, hs]
  · intro s v hs
    simpa [return_value] using hs
  · intro s e hs
    simpa [unhandled_exception] using hs
  · intro s hs
    simpa [markDone] using hs
  · intro s k hs
    exact (await_suspend_state_fields s k).1.trans hs
  · intro s hs
    rcases hex : s.exception with _ | e
    · rcases hv : s.value with _ | v
      · simpa [await_resume, hex, hv] using hs
      · simpa [await_resume, hex, hv] using hs
    · simpa [await_resume, hex] using hs

/-- Witness for C8: on a state that already went asynchronous, storing the
co_returned value leaves `is_sync` false. -/
theorem C8_is_sync_monotone_witness :
    (return_value 5 { TaskState.init Nat with is_sync := false }).is_sync = false :=
  (C8_is_sync_monotone (R := Nat)).2.2.2.2.1 { TaskState.init Nat with is_sync := false } 5 rfl

/-- C9: unlike the readiness check (which throws on an empty handle),
`task::done` and `task::await_suspend` have no emptiness branch: on an empty
handle they operate on a null coroutine handle (undefined behaviour,
modelled as `none`), and on a non-empty handle they behave as the
state-level operations. -/
theorem C9_no_empty_guard {R : Type} (k : Nat) :
    doneH (none : Option (TaskState R)) = none ∧
    await_suspendH (none : Option (TaskState R)) k = none ∧
    (∀ s : TaskState R, doneH (some s) = some s.done) ∧
    (∀ s : TaskState R, await_suspendH (some s) k = some (await_suspend s k)) ∧
    await_ready (none : Option (TaskState R)) =
      Except.error "cannot co_await an empty task" :=
  ⟨rfl, rfl, fun _ => rfl, fun _ => rfl, rfl⟩

/-- C10: move-assignment binds the target to the handle the source held and
leaves the source empty, returning the target's previous binding untouched
(neither destroyed nor completed nor mutated); move-construction likewise
takes the source's handle and leaves the source empty. -/
theorem C10_move_semantics {R : Type} (target other : Option (TaskState R)) :
    (moveAssign target other).target = other ∧
    (moveAssign target other).source = none ∧
    (moveAssign target other).dropped = target ∧
    moveConstruct other = (other, none) :=
  ⟨rfl, rfl, rfl, rfl⟩

end DppTask

